import Mathlib

/-!
Shallow embedding of the ASPEED System Control Unit register emulation
engine (hw/misc/aspeed_scu.c).  Registers are 32-bit words modelled as
`Nat` with explicit `% 2^32` truncation at every store, matching the
C `uint32_t` assignments.  The three silicon generations (AST2400,
AST2500, AST2600) are a tagged variant `Rev` dispatching to the
per-generation read/write/reset/PLL functions, each translated line by
line from the source.
-/

namespace AspeedSCU

/-- Source macro `TO_REG(offset) = offset >> 2`, the byte-offset to word-index map. -/
def TO_REG (offset : Nat) : Nat := offset / 4

/-! Register indices of the AST2400/AST2500 map (aspeed_scu.c lines 26-91). -/

def PROT_KEY        : Nat := TO_REG 0x00
def SYS_RST_CTRL    : Nat := TO_REG 0x04
def CLK_SEL         : Nat := TO_REG 0x08
def CLK_STOP_CTRL   : Nat := TO_REG 0x0C
def FREQ_CNTR_EVAL  : Nat := TO_REG 0x14
def D2PLL_PARAM     : Nat := TO_REG 0x1C
def MPLL_PARAM      : Nat := TO_REG 0x20
def HPLL_PARAM      : Nat := TO_REG 0x24
def MISC_CTRL1      : Nat := TO_REG 0x2C
def PCI_CTRL1       : Nat := TO_REG 0x30
def PCI_CTRL2       : Nat := TO_REG 0x34
def PCI_CTRL3      : Nat := TO_REG 0x38
def SYS_RST_STATUS  : Nat := TO_REG 0x3C
def SOC_SCRATCH1    : Nat := TO_REG 0x40
def MISC_CTRL2      : Nat := TO_REG 0x4C
def VGA_SCRATCH1    : Nat := TO_REG 0x50
def VGA_SCRATCH8    : Nat := TO_REG 0x6C
def HW_STRAP1       : Nat := TO_REG 0x70
def RNG_CTRL        : Nat := TO_REG 0x74
def RNG_DATA        : Nat := TO_REG 0x78
def SILICON_REV     : Nat := TO_REG 0x7C
def PINMUX_CTRL2    : Nat := TO_REG 0x84
def PINMUX_CTRL3    : Nat := TO_REG 0x88
def PINMUX_CTRL4    : Nat := TO_REG 0x8C
def PINMUX_CTRL5    : Nat := TO_REG 0x90
def WDT_RST_CTRL    : Nat := TO_REG 0x9C
def PINMUX_CTRL8    : Nat := TO_REG 0xA4
def PINMUX_CTRL9    : Nat := TO_REG 0xA8
def WAKEUP_EN       : Nat := TO_REG 0xC0
def HW_STRAP2       : Nat := TO_REG 0xD0
def FREE_CNTR4      : Nat := TO_REG 0xE0
def FREE_CNTR4_EXT  : Nat := TO_REG 0xE4
def CPU2_BASE_SEG1  : Nat := TO_REG 0x104
def CPU2_BASE_SEG4  : Nat := TO_REG 0x110
def CPU2_BASE_SEG5  : Nat := TO_REG 0x114
def CHIP_ID0        : Nat := TO_REG 0x150
def CHIP_ID1        : Nat := TO_REG 0x154
def UART_HPLL_CLK   : Nat := TO_REG 0x160
def PCIE_CTRL       : Nat := TO_REG 0x180
def BMC_DEV_ID      : Nat := TO_REG 0x1A4

/-! Register indices of the AST2600 map (aspeed_scu.c lines 93-121). -/

def AST2600_PROT_KEY          : Nat := TO_REG 0x00
def AST2600_SILICON_REV       : Nat := TO_REG 0x04
def AST2600_SILICON_REV2      : Nat := TO_REG 0x14
def AST2600_SYS_RST_CTRL      : Nat := TO_REG 0x40
def AST2600_SYS_RST_CTRL_CLR  : Nat := TO_REG 0x44
def AST2600_SYS_RST_CTRL2     : Nat := TO_REG 0x50
def AST2600_SYS_RST_CTRL2_CLR : Nat := TO_REG 0x54
def AST2600_CLK_STOP_CTRL     : Nat := TO_REG 0x80
def AST2600_CLK_STOP_CTRL_CLR : Nat := TO_REG 0x84
def AST2600_CLK_STOP_CTRL2     : Nat := TO_REG 0x90
def AST2600_CLK_STOP_CTRL2_CLR : Nat := TO_REG 0x94
def AST2600_SDRAM_HANDSHAKE   : Nat := TO_REG 0x100
def AST2600_HPLL_PARAM        : Nat := TO_REG 0x200
def AST2600_HPLL_EXT          : Nat := TO_REG 0x204
def AST2600_MPLL_EXT          : Nat := TO_REG 0x224
def AST2600_EPLL_EXT          : Nat := TO_REG 0x244
def AST2600_HW_STRAP1         : Nat := TO_REG 0x500
def AST2600_HW_STRAP1_CLR     : Nat := TO_REG 0x504
def AST2600_HW_STRAP1_PROT    : Nat := TO_REG 0x508
def AST2600_HW_STRAP2         : Nat := TO_REG 0x510
def AST2600_HW_STRAP2_CLR     : Nat := TO_REG 0x514
def AST2600_HW_STRAP2_PROT    : Nat := TO_REG 0x518
def AST2600_RNG_DATA          : Nat := TO_REG 0x540
def AST2600_CHIP_ID0          : Nat := TO_REG 0x5B0
def AST2600_CHIP_ID1          : Nat := TO_REG 0x5B4

/-- Modelled from the spec: the register count of the two older
generations, defined in the missing header hw/misc/aspeed_scu.h.  The
spec's §3 word count conflicts with the source's own reset tables
(which initialise indices up to `BMC_DEV_ID = TO_REG 0x1A4 = 105`), so
the count is taken as `TO_REG 0x1A8 = 106`, the smallest bound covering
the source's register map. -/
def ASPEED_SCU_NR_REGS : Nat := TO_REG 0x1A8

/-- Modelled from the spec: the register count of the newest generation,
defined in the missing header.  The source's AST2600 reset table
initialises indices up to `AST2600_CHIP_ID1 = TO_REG 0x5B4 = 365`, so
the count is `TO_REG 0x5B8 = 366`. -/
def ASPEED_AST2600_SCU_NR_REGS : Nat := TO_REG 0x5B8

/-- Modelled from the spec: the single fixed magic unlock constant for
the protection key, identical across all three generations, defined in
the missing header. -/
def ASPEED_SCU_PROT_KEY : Nat := 0x1688A8A8

/-- Modelled from the spec: strap bit selecting the 25 MHz input clock
(the source comments "SCU70 bit 23: 0 24Mhz"); from the missing header. -/
def SCU_HW_STRAP_CLK_25M_IN : Nat := 2 ^ 23

/-- Modelled from the spec: strap bit selecting the 48 MHz input clock;
from the missing header. -/
def SCU_HW_STRAP_CLK_48M_IN : Nat := 2 ^ 18

/-- Modelled from the spec: the AST2400 HPLL parameter "off" bit, from
the missing header. -/
def SCU_AST2400_H_PLL_OFF : Nat := 2 ^ 17

/-- Modelled from the spec: the AST2400 HPLL parameter "bypass" bit,
from the missing header. -/
def SCU_AST2400_H_PLL_BYPASS_EN : Nat := 2 ^ 16

/-- Modelled from the spec: the AST2400 HPLL parameter "programmed" bit,
from the missing header. -/
def SCU_AST2400_H_PLL_PROGRAMMED : Nat := 2 ^ 18

/-- Modelled from the spec: the AST2500 HPLL parameter "off" bit, from
the missing header. -/
def SCU_H_PLL_OFF : Nat := 2 ^ 19

/-- Modelled from the spec: the AST2500 HPLL parameter "bypass" bit,
from the missing header. -/
def SCU_H_PLL_BYPASS_EN : Nat := 2 ^ 20

/-- Modelled from the spec: the AST2400 strap field selecting one of
four HPLL frequencies, from the missing header. -/
def SCU_AST2400_HW_STRAP_GET_H_PLL_CLK (x : Nat) : Nat := (x >>> 8) &&& 0x3

/-- Modelled from the spec: the PCLK divisor field of the clock-select
register, from the missing header. -/
def SCU_CLK_GET_PCLK_DIV (x : Nat) : Nat := (x >>> 23) &&& 0x7

/-- Modelled from the spec: the fixed "supported" silicon revision the
newest generation pins its primary revision register to on reset
(`AST2600_A1_SILICON_REV`, from the missing header). -/
def AST2600_A1_SILICON_REV : Nat := 0x05010303

/-- Device state: the register file plus the four construction
parameters (`silicon-rev`, `hw-strap1`, `hw-strap2`, `hw-prot-key`
properties of `AspeedSCUState`). -/
@[ext]
structure SCUState where
  regs : Nat → Nat
  silicon_rev : Nat
  hw_strap1 : Nat
  hw_strap2 : Nat
  hw_prot_key : Nat

/-- Store a 32-bit word: every C store into `s->regs[i]` (a `uint32_t`)
truncates its right-hand side. -/
def upd32 (f : Nat → Nat) (i v : Nat) : Nat → Nat :=
  fun j => if j = i then v % 2 ^ 32 else f j

/-- 32-bit complement `~data` of a `uint32_t` value (XOR with all-ones). -/
def compl32 (x : Nat) : Nat := (x % 2 ^ 32) ^^^ (2 ^ 32 - 1)

/-- 64-bit complement `~data` of a `uint64_t` value (XOR with all-ones). -/
def compl64 (x : Nat) : Nat := (x % 2 ^ 64) ^^^ (2 ^ 64 - 1)

/-- Construction: the four qdev properties are latched (as `uint32_t`)
and the register file is zero-initialised device memory. -/
def construct (sr h1 h2 pk : Nat) : SCUState :=
  { regs := fun _ => 0
    silicon_rev := sr % 2 ^ 32
    hw_strap1 := h1 % 2 ^ 32
    hw_strap2 := h2 % 2 ^ 32
    hw_prot_key := pk % 2 ^ 32 }

/-- Reset table `ast2400_a0_resets` (aspeed_scu.c lines 127-157); indices absent
from the designated initialiser are zero. -/
def ast2400_a0_resets : Nat → Nat := fun i =>
  if i = SYS_RST_CTRL then 0xFFCFFEDC
  else if i = CLK_SEL then 0xF3F40000
  else if i = CLK_STOP_CTRL then 0x19FC3E8B
  else if i = D2PLL_PARAM then 0x00026108
  else if i = MPLL_PARAM then 0x00030291
  else if i = HPLL_PARAM then 0x00000291
  else if i = MISC_CTRL1 then 0x00000010
  else if i = PCI_CTRL1 then 0x20001A03
  else if i = PCI_CTRL2 then 0x20001A03
  else if i = PCI_CTRL3 then 0x04000030
  else if i = SYS_RST_STATUS then 0x00000001
  else if i = SOC_SCRATCH1 then 0x000000C0
  else if i = MISC_CTRL2 then 0x00000023
  else if i = RNG_CTRL then 0x0000000E
  else if i = PINMUX_CTRL2 then 0x0000F000
  else if i = PINMUX_CTRL3 then 0x01000000
  else if i = PINMUX_CTRL4 then 0x000000FF
  else if i = PINMUX_CTRL5 then 0x0000A000
  else if i = WDT_RST_CTRL then 0x003FFFF3
  else if i = PINMUX_CTRL8 then 0xFFFF0000
  else if i = PINMUX_CTRL9 then 0x000FFFFF
  else if i = FREE_CNTR4 then 0x000000FF
  else if i = FREE_CNTR4_EXT then 0x000000FF
  else if i = CPU2_BASE_SEG1 then 0x80000000
  else if i = CPU2_BASE_SEG4 then 0x1E600000
  else if i = CPU2_BASE_SEG5 then 0xC0000000
  else if i = UART_HPLL_CLK then 0x00001903
  else if i = PCIE_CTRL then 0x0000007B
  else if i = BMC_DEV_ID then 0x00002402
  else 0

/-- Reset table `ast2500_a1_resets` (aspeed_scu.c lines 162-194). -/
def ast2500_a1_resets : Nat → Nat := fun i =>
  if i = SYS_RST_CTRL then 0xFFCFFEDC
  else if i = CLK_SEL then 0xF3F40000
  else if i = CLK_STOP_CTRL then 0x19FC3E8B
  else if i = D2PLL_PARAM then 0x00026108
  else if i = MPLL_PARAM then 0x00030291
  else if i = HPLL_PARAM then 0x93000400
  else if i = MISC_CTRL1 then 0x00000010
  else if i = PCI_CTRL1 then 0x20001A03
  else if i = PCI_CTRL2 then 0x20001A03
  else if i = PCI_CTRL3 then 0x04000030
  else if i = SYS_RST_STATUS then 0x00000001
  else if i = SOC_SCRATCH1 then 0x000000C0
  else if i = MISC_CTRL2 then 0x00000023
  else if i = RNG_CTRL then 0x0000000E
  else if i = PINMUX_CTRL2 then 0x0000F000
  else if i = PINMUX_CTRL3 then 0x03000000
  else if i = PINMUX_CTRL4 then 0x00000000
  else if i = PINMUX_CTRL5 then 0x0000A000
  else if i = WDT_RST_CTRL then 0x023FFFF3
  else if i = PINMUX_CTRL8 then 0xFFFF0000
  else if i = PINMUX_CTRL9 then 0x000FFFFF
  else if i = FREE_CNTR4 then 0x000000FF
  else if i = FREE_CNTR4_EXT then 0x000000FF
  else if i = CPU2_BASE_SEG1 then 0x80000000
  else if i = CPU2_BASE_SEG4 then 0x1E600000
  else if i = CPU2_BASE_SEG5 then 0xC0000000
  else if i = CHIP_ID0 then 0x1234ABCD
  else if i = CHIP_ID1 then 0x88884444
  else if i = UART_HPLL_CLK then 0x00001903
  else if i = PCIE_CTRL then 0x0000007B
  else if i = BMC_DEV_ID then 0x00002402
  else 0

/-- Reset table `ast2600_a1_resets` (aspeed_scu.c lines 655-665). -/
def ast2600_a1_resets : Nat → Nat := fun i =>
  if i = AST2600_SYS_RST_CTRL then 0xF7C3FED8
  else if i = AST2600_SYS_RST_CTRL2 then 0xFFFFFFFC
  else if i = AST2600_CLK_STOP_CTRL then 0xFFFF7F8A
  else if i = AST2600_CLK_STOP_CTRL2 then 0xFFF0FFF0
  else if i = AST2600_SDRAM_HANDSHAKE then 0x00000000
  else if i = AST2600_HPLL_PARAM then 0x1000405F
  else if i = AST2600_CHIP_ID0 then 0x1234ABCD
  else if i = AST2600_CHIP_ID1 then 0x88884444
  else 0

/-- Source function `aspeed_scu_get_clkin` (lines 347-356): input clock from the strap
word held in the instance field `hw_strap1`. -/
def aspeed_scu_get_clkin (s : SCUState) : Nat :=
  if s.hw_strap1 &&& SCU_HW_STRAP_CLK_25M_IN ≠ 0 then 25000000
  else if s.hw_strap1 &&& SCU_HW_STRAP_CLK_48M_IN ≠ 0 then 48000000
  else 24000000

/-- Source table `hpll_ast2400_freqs` (lines 362-365): strapped frequencies in MHz,
row selected by the 25 MHz strap, column by a 2-bit field (0..3). -/
def hpll_ast2400_freqs (clk_25m_in : Bool) (sel : Nat) : Nat :=
  if clk_25m_in then
    if sel = 0 then 400 else if sel = 1 then 375 else if sel = 2 then 350 else 425
  else
    if sel = 0 then 384 else if sel = 1 then 360 else if sel = 2 then 336 else 408

/-- Source function `aspeed_2400_scu_calc_hpll` (lines 367-396).  The `uint32_t` return
truncates `clkin * multiplier`. -/
def aspeed_2400_scu_calc_hpll (s : SCUState) (hpll_reg : Nat) : Nat :=
  let clkin := aspeed_scu_get_clkin s
  if hpll_reg &&& SCU_AST2400_H_PLL_OFF ≠ 0 then 0
  else if hpll_reg &&& SCU_AST2400_H_PLL_PROGRAMMED ≠ 0 then
    let multiplier :=
      if hpll_reg &&& SCU_AST2400_H_PLL_BYPASS_EN = 0 then
        let n := (hpll_reg >>> 5) &&& 0x3f
        let od := (hpll_reg >>> 4) &&& 0x1
        let d := hpll_reg &&& 0xf
        (2 - od) * ((n + 2) / (d + 1))
      else 1
    (clkin * multiplier) % 2 ^ 32
  else
    let clk_25m_in := s.hw_strap1 &&& SCU_HW_STRAP_CLK_25M_IN ≠ 0
    let freq_select := SCU_AST2400_HW_STRAP_GET_H_PLL_CLK s.hw_strap1
    (hpll_ast2400_freqs clk_25m_in freq_select * 1000000) % 2 ^ 32

/-- Source function `aspeed_2500_scu_calc_hpll` (lines 398-416), also used unchanged by
the AST2600 class. -/
def aspeed_2500_scu_calc_hpll (s : SCUState) (hpll_reg : Nat) : Nat :=
  let clkin := aspeed_scu_get_clkin s
  if hpll_reg &&& SCU_H_PLL_OFF ≠ 0 then 0
  else
    let multiplier :=
      if hpll_reg &&& SCU_H_PLL_BYPASS_EN = 0 then
        let p := (hpll_reg >>> 13) &&& 0x3f
        let m := (hpll_reg >>> 5) &&& 0xff
        let n := hpll_reg &&& 0x1f
        ((m + 1) / (n + 1)) / (p + 1)
      else 1
    (clkin * multiplier) % 2 ^ 32

/-- Source function `aspeed_scu_read` (lines 212-239), shared by AST2400 and AST2500.
The injected `rand` is the fresh draw `aspeed_scu_get_random()` would
return; the result pairs the returned word with the possibly-updated
state.  The `WAKEUP_EN` case only logs and still returns the stored
word. -/
def aspeed_scu_read (s : SCUState) (offset rand : Nat) : Nat × SCUState :=
  let reg := TO_REG offset
  if ASPEED_SCU_NR_REGS ≤ reg then (0, s)
  else if reg = RNG_DATA then
    let s1 : SCUState := { s with regs := upd32 s.regs RNG_DATA rand }
    (s1.regs reg, s1)
  else (s.regs reg, s)

/-- Source function `aspeed_ast2400_scu_write` (lines 241-278).  The lock check at
lines 254-257 only emits the "SCU is locked!" diagnostic — the source
has no early return there — so it has no effect on the state and does
not appear below. -/
def aspeed_ast2400_scu_write (s : SCUState) (offset data : Nat) : SCUState :=
  let reg := TO_REG offset
  if ASPEED_SCU_NR_REGS ≤ reg then s
  else if reg = PROT_KEY then
    { s with regs := upd32 s.regs reg (if data = ASPEED_SCU_PROT_KEY then 1 else 0) }
  else if reg = SILICON_REV ∨ reg = FREQ_CNTR_EVAL ∨
      (VGA_SCRATCH1 ≤ reg ∧ reg ≤ VGA_SCRATCH8) ∨ reg = RNG_DATA ∨
      reg = FREE_CNTR4 ∨ reg = FREE_CNTR4_EXT then
    s
  else { s with regs := upd32 s.regs reg data }

/-- Source function `aspeed_ast2500_scu_write` (lines 280-326).  The lock check at
lines 293-298 only logs ("SCU is locked!"); its early return is
commented out in the source ("TODO: why drop the return for ADC"). -/
def aspeed_ast2500_scu_write (s : SCUState) (offset data : Nat) : SCUState :=
  let reg := TO_REG offset
  if ASPEED_SCU_NR_REGS ≤ reg then s
  else if reg = PROT_KEY then
    { s with regs := upd32 s.regs reg (if data = ASPEED_SCU_PROT_KEY then 1 else 0) }
  else if reg = HW_STRAP1 then
    { s with regs := upd32 s.regs HW_STRAP1 (s.regs HW_STRAP1 ||| data) }
  else if reg = SILICON_REV then
    { s with regs := upd32 s.regs HW_STRAP1 (s.regs HW_STRAP1 &&& compl64 data) }
  else if reg = FREQ_CNTR_EVAL ∨
      (VGA_SCRATCH1 ≤ reg ∧ reg ≤ VGA_SCRATCH8) ∨ reg = RNG_DATA ∨
      reg = FREE_CNTR4 ∨ reg = FREE_CNTR4_EXT ∨
      reg = CHIP_ID0 ∨ reg = CHIP_ID1 then
    s
  else { s with regs := upd32 s.regs reg data }

/-- Source function `aspeed_ast2600_scu_read` (lines 547-578).  The PLL extension
registers read back with `BIT(31)` forced set ("PLLs are always
locked"). -/
def aspeed_ast2600_scu_read (s : SCUState) (offset rand : Nat) : Nat × SCUState :=
  let reg := TO_REG offset
  if ASPEED_AST2600_SCU_NR_REGS ≤ reg then (0, s)
  else if reg = AST2600_HPLL_EXT ∨ reg = AST2600_EPLL_EXT ∨ reg = AST2600_MPLL_EXT then
    (s.regs reg ||| 2 ^ 31, s)
  else if reg = AST2600_RNG_DATA then
    let s1 : SCUState := { s with regs := upd32 s.regs AST2600_RNG_DATA rand }
    (s1.regs reg, s1)
  else (s.regs reg, s)

/-- Source function `aspeed_ast2600_scu_write` (lines 580-644).  `data64` is truncated
to 32 bits on entry ("Truncate here so bitwise operations below behave
as expected").  The lock check at lines 595-597 only logs.  The
source's fall-through from the strap cases into the W1S cases is
written out explicitly: a strap register whose protection register
(two words above it) is nonzero ignores the write, otherwise it behaves
as W1S.  W1C clear registers are offset by one word above their data
register. -/
def aspeed_ast2600_scu_write (s : SCUState) (offset data64 : Nat) : SCUState :=
  let reg := TO_REG offset
  let data := data64 % 2 ^ 32
  if ASPEED_AST2600_SCU_NR_REGS ≤ reg then s
  else if reg = AST2600_PROT_KEY then
    { s with regs := upd32 s.regs reg (if data = ASPEED_SCU_PROT_KEY then 1 else 0) }
  else if reg = AST2600_HW_STRAP1 ∨ reg = AST2600_HW_STRAP2 then
    if s.regs (reg + 2) ≠ 0 then s
    else { s with regs := upd32 s.regs reg (s.regs reg ||| data) }
  else if reg = AST2600_SYS_RST_CTRL ∨ reg = AST2600_SYS_RST_CTRL2 ∨
      reg = AST2600_CLK_STOP_CTRL ∨ reg = AST2600_CLK_STOP_CTRL2 then
    { s with regs := upd32 s.regs reg (s.regs reg ||| data) }
  else if reg = AST2600_SYS_RST_CTRL_CLR ∨ reg = AST2600_SYS_RST_CTRL2_CLR ∨
      reg = AST2600_CLK_STOP_CTRL_CLR ∨ reg = AST2600_CLK_STOP_CTRL2_CLR ∨
      reg = AST2600_HW_STRAP1_CLR ∨ reg = AST2600_HW_STRAP2_CLR then
    { s with regs := upd32 s.regs (reg - 1) (s.regs (reg - 1) &&& compl32 data) }
  else if reg = AST2600_RNG_DATA ∨ reg = AST2600_SILICON_REV ∨
      reg = AST2600_SILICON_REV2 ∨ reg = AST2600_CHIP_ID0 ∨ reg = AST2600_CHIP_ID1 then
    s
  else { s with regs := upd32 s.regs reg data }

/-- Source function `aspeed_scu_reset` (lines 418-428), used by the AST2400 and AST2500
classes: memcpy of the class reset table over the first `nr` words,
then the four seeded overlays. -/
def aspeed_scu_reset (resets : Nat → Nat) (nr : Nat) (s : SCUState) : SCUState :=
  let regs := fun i => if i < nr then resets i else s.regs i
  let regs := upd32 regs SILICON_REV s.silicon_rev
  let regs := upd32 regs HW_STRAP1 s.hw_strap1
  let regs := upd32 regs HW_STRAP2 s.hw_strap2
  let regs := upd32 regs PROT_KEY s.hw_prot_key
  { s with regs := regs }

/-- Source function `aspeed_ast2600_scu_reset` (lines 667-684): the primary revision
register is pinned to `AST2600_A1_SILICON_REV` while the extended
revision register receives the configured value. -/
def aspeed_ast2600_scu_reset (resets : Nat → Nat) (nr : Nat) (s : SCUState) : SCUState :=
  let regs := fun i => if i < nr then resets i else s.regs i
  let regs := upd32 regs AST2600_SILICON_REV AST2600_A1_SILICON_REV
  let regs := upd32 regs AST2600_SILICON_REV2 s.silicon_rev
  let regs := upd32 regs AST2600_HW_STRAP1 s.hw_strap1
  let regs := upd32 regs AST2600_HW_STRAP2 s.hw_strap2
  let regs := upd32 regs PROT_KEY s.hw_prot_key
  { s with regs := regs }

/-- The three revision descriptors: Gen-A = AST2400, Gen-B = AST2500,
Gen-C = AST2600. -/
inductive Rev
  | ast2400
  | ast2500
  | ast2600
deriving DecidableEq

/-- Class field `asc->nr_regs` of each class. -/
def nr_regs : Rev → Nat
  | .ast2400 => ASPEED_SCU_NR_REGS
  | .ast2500 => ASPEED_SCU_NR_REGS
  | .ast2600 => ASPEED_AST2600_SCU_NR_REGS

/-- Class field `asc->resets` of each class. -/
def class_resets : Rev → Nat → Nat
  | .ast2400 => ast2400_a0_resets
  | .ast2500 => ast2500_a1_resets
  | .ast2600 => ast2600_a1_resets

/-- Class field `asc->apb_divider` of each class. -/
def apb_divider : Rev → Nat
  | .ast2400 => 2
  | .ast2500 => 4
  | .ast2600 => 4

/-- Class field `asc->calc_hpll` of each class; the AST2600 reuses the AST2500
formula ("No change since AST2500"). -/
def calc_hpll : Rev → SCUState → Nat → Nat
  | .ast2400 => aspeed_2400_scu_calc_hpll
  | .ast2500 => aspeed_2500_scu_calc_hpll
  | .ast2600 => aspeed_2500_scu_calc_hpll

/-- Write dispatch: `asc->ops->write` of each class. -/
def scu_write : Rev → SCUState → Nat → Nat → SCUState
  | .ast2400 => aspeed_ast2400_scu_write
  | .ast2500 => aspeed_ast2500_scu_write
  | .ast2600 => aspeed_ast2600_scu_write

/-- Read dispatch: `asc->ops->read` of each class. -/
def scu_read : Rev → SCUState → Nat → Nat → Nat × SCUState
  | .ast2400 => aspeed_scu_read
  | .ast2500 => aspeed_scu_read
  | .ast2600 => aspeed_ast2600_scu_read

/-- Reset dispatch: `dc->reset` of each class. -/
def scu_reset : Rev → SCUState → SCUState
  | .ast2400, s => aspeed_scu_reset ast2400_a0_resets ASPEED_SCU_NR_REGS s
  | .ast2500, s => aspeed_scu_reset ast2500_a1_resets ASPEED_SCU_NR_REGS s
  | .ast2600, s => aspeed_ast2600_scu_reset ast2600_a1_resets ASPEED_AST2600_SCU_NR_REGS s

/-- Source function `aspeed_scu_get_apb_freq` (lines 203-210). -/
def aspeed_scu_get_apb_freq (rev : Rev) (s : SCUState) : Nat :=
  let hpll := calc_hpll rev s (s.regs HPLL_PARAM)
  hpll / (SCU_CLK_GET_PCLK_DIV (s.regs CLK_SEL) + 1) / apb_divider rev

/-- States reachable from construction by any sequence of reset, write
and read operations.  Construction takes the four qdev properties; the
read step keeps only the state component (the injected `rand` is the
fresh random draw). -/
inductive Reachable (rev : Rev) : SCUState → Prop
  | construct (sr h1 h2 pk : Nat) : Reachable rev (construct sr h1 h2 pk)
  | reset (s : SCUState) : Reachable rev s → Reachable rev (scu_reset rev s)
  | write (s : SCUState) (offset data : Nat) :
      Reachable rev s → Reachable rev (scu_write rev s offset data)
  | read (s : SCUState) (offset rand : Nat) :
      Reachable rev s → Reachable rev (scu_read rev s offset rand).2

/-- The register indices a reset overlays with seeded values after the
table copy: the four overlay targets of `aspeed_scu_reset` for the two
older generations, the five of `aspeed_ast2600_scu_reset` for the
newest. -/
def seededIdx : Rev → Nat → Prop
  | .ast2400, i => i = SILICON_REV ∨ i = HW_STRAP1 ∨ i = HW_STRAP2 ∨ i = PROT_KEY
  | .ast2500, i => i = SILICON_REV ∨ i = HW_STRAP1 ∨ i = HW_STRAP2 ∨ i = PROT_KEY
  | .ast2600, i => i = AST2600_SILICON_REV ∨ i = AST2600_SILICON_REV2 ∨
      i = AST2600_HW_STRAP1 ∨ i = AST2600_HW_STRAP2 ∨ i = AST2600_PROT_KEY

/-- The values the seeded registers hold after reset: the configured
silicon revision (for the newest generation, the pinned supported value
in the primary revision register and the configured value in the
extended one), the two configured strap words, and the configured
protection-key state. -/
def seededVals (rev : Rev) (s : SCUState) : Prop :=
  match rev with
  | .ast2400 | .ast2500 =>
      (scu_reset rev s).regs SILICON_REV = s.silicon_rev ∧
      (scu_reset rev s).regs HW_STRAP1 = s.hw_strap1 ∧
      (scu_reset rev s).regs HW_STRAP2 = s.hw_strap2 ∧
      (scu_reset rev s).regs PROT_KEY = s.hw_prot_key
  | .ast2600 =>
      (scu_reset rev s).regs AST2600_SILICON_REV = AST2600_A1_SILICON_REV ∧
      (scu_reset rev s).regs AST2600_SILICON_REV2 = s.silicon_rev ∧
      (scu_reset rev s).regs AST2600_HW_STRAP1 = s.hw_strap1 ∧
      (scu_reset rev s).regs AST2600_HW_STRAP2 = s.hw_strap2 ∧
      (scu_reset rev s).regs PROT_KEY = s.hw_prot_key

/-- A freshly reset AST2400 with silicon revision `AST2400_A0` and zero
straps and protection key: the key register holds 0, so the device is
locked. -/
def resetA : SCUState := scu_reset .ast2400 (construct 0x02000303 0 0 0)

/-- A freshly reset AST2500 (silicon revision `AST2500_A1`), locked. -/
def resetB : SCUState := scu_reset .ast2500 (construct 0x04010303 0 0 0)

/-- A freshly reset AST2600 (silicon revision `AST2600_A1`), locked. -/
def resetC : SCUState := scu_reset .ast2600 (construct 0x05010303 0 0 0)

/-- An AST2500-shaped state whose HPLL parameter register has only the
"bypass" bit set (so the "off" bit is clear) and whose straps select
the 24 MHz input clock. -/
def sB : SCUState :=
  { regs := upd32 (fun _ => 0) HPLL_PARAM SCU_H_PLL_BYPASS_EN
    silicon_rev := 0, hw_strap1 := 0, hw_strap2 := 0, hw_prot_key := 0 }

/-- An AST2400-shaped state whose HPLL parameter register has only the
"bypass" bit set — the "off" and "programmed" bits are clear, so the
AST2400 formula takes the hardware-strapping path. -/
def sA : SCUState :=
  { regs := upd32 (fun _ => 0) HPLL_PARAM SCU_AST2400_H_PLL_BYPASS_EN
    silicon_rev := 0, hw_strap1 := 0, hw_strap2 := 0, hw_prot_key := 0 }

/-- A state whose HPLL parameter register has the AST2500 "off" bit
set. -/
def sOff : SCUState :=
  { regs := upd32 (fun _ => 0) HPLL_PARAM SCU_H_PLL_OFF
    silicon_rev := 0, hw_strap1 := 0, hw_strap2 := 0, hw_prot_key := 0 }

/-- A freshly reset AST2600 whose strap-1 protection register
(`AST2600_HW_STRAP1_PROT`) has been given a nonzero value by a plain
register write. -/
def sProt : SCUState := aspeed_ast2600_scu_write resetC 0x508 0x1

/-- The HPLL parameter "off" bit each revision's formula tests. -/
def pll_off_bit : Rev → Nat
  | .ast2400 => SCU_AST2400_H_PLL_OFF
  | .ast2500 => SCU_H_PLL_OFF
  | .ast2600 => SCU_H_PLL_OFF

/-- The HPLL parameter "bypass" bit each revision's formula tests. -/
def pll_bypass_bit : Rev → Nat
  | .ast2400 => SCU_AST2400_H_PLL_BYPASS_EN
  | .ast2500 => SCU_H_PLL_BYPASS_EN
  | .ast2600 => SCU_H_PLL_BYPASS_EN

/-! ## Theorems -/


theorem upd32_self (f : Nat → Nat) (i v : Nat) : upd32 f i v i = v % 2 ^ 32 := if_pos rfl

theorem upd32_other (f : Nat → Nat) (i v j : Nat) (h : j ≠ i) : upd32 f i v j = f j := if_neg h

theorem regs_ite (c : Prop) [Decidable c] (a b : SCUState) (j : Nat) :
    (if c then a else b).regs j = if c then a.regs j else b.regs j :=
  apply_ite (fun st => st.regs j) c a b

theorem silicon_rev_ite (c : Prop) [Decidable c] (a b : SCUState) :
    (if c then a else b).silicon_rev = if c then a.silicon_rev else b.silicon_rev :=
  apply_ite (fun st => st.silicon_rev) c a b

theorem hw_strap1_ite (c : Prop) [Decidable c] (a b : SCUState) :
    (if c then a else b).hw_strap1 = if c then a.hw_strap1 else b.hw_strap1 :=
  apply_ite (fun st => st.hw_strap1) c a b

theorem hw_strap2_ite (c : Prop) [Decidable c] (a b : SCUState) :
    (if c then a else b).hw_strap2 = if c then a.hw_strap2 else b.hw_strap2 :=
  apply_ite (fun st => st.hw_strap2) c a b

theorem hw_prot_key_ite (c : Prop) [Decidable c] (a b : SCUState) :
    (if c then a else b).hw_prot_key = if c then a.hw_prot_key else b.hw_prot_key :=
  apply_ite (fun st => st.hw_prot_key) c a b

theorem write_fields (rev : Rev) (s : SCUState) (o d : Nat) :
    (scu_write rev s o d).silicon_rev = s.silicon_rev ∧
    (scu_write rev s o d).hw_strap1 = s.hw_strap1 ∧
    (scu_write rev s o d).hw_strap2 = s.hw_strap2 ∧
    (scu_write rev s o d).hw_prot_key = s.hw_prot_key := by
  cases rev <;>
    refine ⟨?_, ?_, ?_, ?_⟩ <;>
    simp only [scu_write, aspeed_ast2400_scu_write, aspeed_ast2500_scu_write,
      aspeed_ast2600_scu_write, silicon_rev_ite, hw_strap1_ite, hw_strap2_ite,
      hw_prot_key_ite, ite_self]

theorem read_fields (rev : Rev) (s : SCUState) (o r : Nat) :
    ((scu_read rev s o r).2).silicon_rev = s.silicon_rev ∧
    ((scu_read rev s o r).2).hw_strap1 = s.hw_strap1 ∧
    ((scu_read rev s o r).2).hw_strap2 = s.hw_strap2 ∧
    ((scu_read rev s o r).2).hw_prot_key = s.hw_prot_key := by
  cases rev <;>
    refine ⟨?_, ?_, ?_, ?_⟩ <;>
    simp only [scu_read, aspeed_scu_read, aspeed_ast2600_scu_read] <;>
    (repeat' split) <;> rfl

theorem reset_fields (rev : Rev) (s : SCUState) :
    (scu_reset rev s).silicon_rev = s.silicon_rev ∧
    (scu_reset rev s).hw_strap1 = s.hw_strap1 ∧
    (scu_reset rev s).hw_strap2 = s.hw_strap2 ∧
    (scu_reset rev s).hw_prot_key = s.hw_prot_key := by
  cases rev <;> exact ⟨rfl, rfl, rfl, rfl⟩


theorem scu_write_prot_key_cases (rev : Rev) (s : SCUState) (o d : Nat) :
    (scu_write rev s o d).regs PROT_KEY = s.regs PROT_KEY ∨
    (scu_write rev s o d).regs PROT_KEY ≤ 1 := by
  cases rev <;>
    simp only [scu_write, aspeed_ast2400_scu_write, aspeed_ast2500_scu_write,
      aspeed_ast2600_scu_write, regs_ite]
  case ast2400 =>
    split_ifs with h1 h2 h3 h4
    · exact Or.inl rfl
    · right; rw [h2, upd32_self]; norm_num
    · right; rw [h2, upd32_self]; norm_num
    · exact Or.inl rfl
    · left
      refine upd32_other _ _ _ _ ?_
      exact fun hh => h2 hh.symm
  case ast2500 =>
    split_ifs with h1 h2 h3 h4 h5 h6
    · exact Or.inl rfl
    · right; rw [h2, upd32_self]; norm_num
    · right; rw [h2, upd32_self]; norm_num
    · left
      refine upd32_other _ _ _ _ ?_
      decide
    · left
      refine upd32_other _ _ _ _ ?_
      decide
    · exact Or.inl rfl
    · left
      refine upd32_other _ _ _ _ ?_
      exact fun hh => h2 hh.symm
  case ast2600 =>
    split_ifs with h1 h2 h3 h4 h5 h6 h7 h8
    · exact Or.inl rfl
    · right; rw [h2]; norm_num [upd32, PROT_KEY, AST2600_PROT_KEY, TO_REG]
    · right; rw [h2]; norm_num [upd32, PROT_KEY, AST2600_PROT_KEY, TO_REG]
    · exact Or.inl rfl
    · left
      refine upd32_other _ _ _ _ ?_
      rcases h4 with h | h <;> rw [h] <;> decide
    · left
      refine upd32_other _ _ _ _ ?_
      rcases h6 with h | h | h | h <;> rw [h] <;> decide
    · left
      refine upd32_other _ _ _ _ ?_
      rcases h7 with h | h | h | h | h | h <;> rw [h] <;> decide
    · exact Or.inl rfl
    · left
      refine upd32_other _ _ _ _ ?_
      exact fun hh => h2 hh.symm

theorem scu_read_regs (rev : Rev) (s : SCUState) (o r : Nat) (j : Nat)
    (hj4 : j ≠ RNG_DATA) (hj6 : j ≠ AST2600_RNG_DATA) :
    ((scu_read rev s o r).2).regs j = s.regs j := by
  cases rev <;>
    simp only [scu_read, aspeed_scu_read, aspeed_ast2600_scu_read] <;>
    (repeat' split) <;>
    first
      | rfl
      | exact upd32_other _ _ _ _ hj4
      | exact upd32_other _ _ _ _ hj6


theorem scu_reset_prot_key (rev : Rev) (s : SCUState) :
    (scu_reset rev s).regs PROT_KEY = s.hw_prot_key % 2 ^ 32 := by
  cases rev <;> rfl

/-- C2 (amended): provided the configured `hw-prot-key` is 0 or 1, the
protection-key register holds exactly 0 or 1 in every reachable state
of every revision: MMIO writes to the key register only ever store 0
or 1, no other operation touches it except reset, and reset copies the
configured key state. -/
theorem prot_key_register_zero_or_one (rev : Rev) (s : SCUState)
    (h : Reachable rev s) (hpk : s.hw_prot_key ≤ 1) :
    s.regs PROT_KEY = 0 ∨ s.regs PROT_KEY = 1 := by
  have key : ∀ t : SCUState, Reachable rev t → t.hw_prot_key ≤ 1 → t.regs PROT_KEY ≤ 1 := by
    intro t ht
    induction ht with
    | construct sr h1 h2 pk =>
        intro _
        simp [construct]
    | reset u hu ih =>
        intro hle
        rw [(reset_fields rev u).2.2.2] at hle
        rw [scu_reset_prot_key]
        rw [Nat.mod_eq_of_lt (lt_of_le_of_lt hle (by norm_num))]
        exact hle
    | write u o d hu ih =>
        intro hle
        rw [(write_fields rev u o d).2.2.2] at hle
        rcases scu_write_prot_key_cases rev u o d with hc | hc
        · rw [hc]; exact ih hle
        · exact hc
    | read u o r hu ih =>
        intro hle
        rw [(read_fields rev u o r).2.2.2] at hle
        rw [scu_read_regs rev u o r PROT_KEY (by decide) (by decide)]
        exact ih hle
  have := key s h hpk
  omega

/-- C2 counterexample: constructing any revision with `hw-prot-key = 2`
and resetting yields a reachable state whose protection-key register
holds 2, which is neither 0 nor 1 — reset copies the raw configured
key value. -/
theorem prot_key_register_raw_counterexample :
    Reachable .ast2400 (scu_reset .ast2400 (construct 0 0 0 2)) ∧
    (scu_reset .ast2400 (construct 0 0 0 2)).regs PROT_KEY ≠ 0 ∧
    (scu_reset .ast2400 (construct 0 0 0 2)).regs PROT_KEY ≠ 1 :=
  ⟨Reachable.reset _ (Reachable.construct 0 0 0 2), by decide, by decide⟩

theorem prot_key_register_zero_or_one_witness :
    (construct 0 0 0 1).regs PROT_KEY = 0 ∨ (construct 0 0 0 1).regs PROT_KEY = 1 :=
  prot_key_register_zero_or_one .ast2400 (construct 0 0 0 1)
    (Reachable.construct 0 0 0 1) (by decide)

/-- C1 (code bug): with the device locked (protection-key register 0)
after reset, a write to `CLK_SEL` — an index strictly between
`PROT_KEY` and `CPU2_BASE_SEG1` — is *not* refused on either older
generation: the lock check of `aspeed_ast2400_scu_write` and
`aspeed_ast2500_scu_write` only logs "SCU is locked!" and falls
through, so the value is stored, changing the register from its reset
value.  The unlocked half of the claim does hold: after writing the
magic key the write also stores its value. -/
theorem locked_write_still_applied :
    resetA.regs PROT_KEY = 0 ∧
    resetB.regs PROT_KEY = 0 ∧
    PROT_KEY < CLK_SEL ∧ CLK_SEL < CPU2_BASE_SEG1 ∧
    resetA.regs CLK_SEL = 0xF3F40000 ∧
    (aspeed_ast2400_scu_write resetA 0x08 0xDEADBEEF).regs CLK_SEL = 0xDEADBEEF ∧
    (aspeed_ast2500_scu_write resetB 0x08 0xDEADBEEF).regs CLK_SEL = 0xDEADBEEF ∧
    (aspeed_ast2400_scu_write
      (aspeed_ast2400_scu_write resetA 0x00 ASPEED_SCU_PROT_KEY)
      0x08 0xCAFE).regs CLK_SEL = 0xCAFE ∧
    (aspeed_ast2500_scu_write
      (aspeed_ast2500_scu_write resetB 0x00 ASPEED_SCU_PROT_KEY)
      0x08 0xCAFE).regs CLK_SEL = 0xCAFE := by
  refine ⟨by decide, by decide, by decide, by decide, by decide, by decide, by decide,
    by decide, by decide⟩

/-- C10: for every revision, an access whose word index is at or
beyond the descriptor's register count is harmless: the read returns 0
with the state unchanged and the write leaves the state unchanged;
both return normally rather than propagating an error. -/
theorem oob_access_is_noop (rev : Rev) (s : SCUState) (offset rand data : Nat)
    (h : nr_regs rev ≤ TO_REG offset) :
    scu_read rev s offset rand = (0, s) ∧ scu_write rev s offset data = s := by
  cases rev <;> simp only [nr_regs] at h <;>
    refine ⟨?_, ?_⟩ <;>
    simp only [scu_read, scu_write, aspeed_scu_read, aspeed_ast2600_scu_read,
      aspeed_ast2400_scu_write, aspeed_ast2500_scu_write, aspeed_ast2600_scu_write] <;>
    rw [if_pos h]

theorem oob_access_is_noop_witness :
    scu_read .ast2400 resetA 0x1A8 7 = (0, resetA) ∧
    scu_write .ast2400 resetA 0x1A8 0xDEADBEEF = resetA :=
  oob_access_is_noop .ast2400 resetA 0x1A8 7 0xDEADBEEF (by decide)


/-- C4: on every revision, a write addressed to the protection-key
register stores 1 exactly when the written value is the magic unlock
constant and 0 otherwise — never the raw value — and changes no other
register. -/
theorem prot_key_write_stores_flag (rev : Rev) (s : SCUState) (offset data : Nat)
    (ho : TO_REG offset = PROT_KEY) (hd : data < 2 ^ 32) :
    (scu_write rev s offset data).regs PROT_KEY =
      (if data = ASPEED_SCU_PROT_KEY then 1 else 0) ∧
    ∀ j, j ≠ PROT_KEY → (scu_write rev s offset data).regs j = s.regs j := by
  cases rev <;>
    simp only [scu_write, aspeed_ast2400_scu_write, aspeed_ast2500_scu_write,
      aspeed_ast2600_scu_write] <;>
    rw [ho]
  case ast2400 =>
    rw [if_neg (by decide : ¬ ASPEED_SCU_NR_REGS ≤ PROT_KEY), if_pos rfl]
    constructor
    · show upd32 s.regs PROT_KEY _ PROT_KEY = _
      rw [upd32_self]
      split <;> norm_num
    · intro j hj
      exact upd32_other _ _ _ _ hj
  case ast2500 =>
    rw [if_neg (by decide : ¬ ASPEED_SCU_NR_REGS ≤ PROT_KEY), if_pos rfl]
    constructor
    · show upd32 s.regs PROT_KEY _ PROT_KEY = _
      rw [upd32_self]
      split <;> norm_num
    · intro j hj
      exact upd32_other _ _ _ _ hj
  case ast2600 =>
    rw [if_neg (by decide : ¬ ASPEED_AST2600_SCU_NR_REGS ≤ PROT_KEY),
      if_pos (by decide : PROT_KEY = AST2600_PROT_KEY), Nat.mod_eq_of_lt hd]
    constructor
    · show upd32 s.regs PROT_KEY _ PROT_KEY = _
      rw [upd32_self]
      split <;> norm_num
    · intro j hj
      exact upd32_other _ _ _ _ hj

theorem prot_key_write_stores_flag_witness :
    (scu_write .ast2600 resetC 0x00 ASPEED_SCU_PROT_KEY).regs PROT_KEY =
      (if ASPEED_SCU_PROT_KEY = ASPEED_SCU_PROT_KEY then 1 else 0) ∧
    (scu_write .ast2600 resetC 0x00 ASPEED_SCU_PROT_KEY).regs AST2600_SILICON_REV2 =
      resetC.regs AST2600_SILICON_REV2 :=
  ⟨(prot_key_write_stores_flag .ast2600 resetC 0x00 ASPEED_SCU_PROT_KEY
      (by decide) (by decide)).1,
   (prot_key_write_stores_flag .ast2600 resetC 0x00 ASPEED_SCU_PROT_KEY
      (by decide) (by decide)).2 AST2600_SILICON_REV2 (by decide)⟩

theorem aspeed_scu_reset_regs (R : Nat → Nat) (nr : Nat) (s : SCUState) (i : Nat) :
    (aspeed_scu_reset R nr s).regs i =
      if i = PROT_KEY then s.hw_prot_key % 2 ^ 32
      else if i = HW_STRAP2 then s.hw_strap2 % 2 ^ 32
      else if i = HW_STRAP1 then s.hw_strap1 % 2 ^ 32
      else if i = SILICON_REV then s.silicon_rev % 2 ^ 32
      else if i < nr then R i else s.regs i := rfl

theorem aspeed_ast2600_scu_reset_regs (R : Nat → Nat) (nr : Nat) (s : SCUState) (i : Nat) :
    (aspeed_ast2600_scu_reset R nr s).regs i =
      if i = PROT_KEY then s.hw_prot_key % 2 ^ 32
      else if i = AST2600_HW_STRAP2 then s.hw_strap2 % 2 ^ 32
      else if i = AST2600_HW_STRAP1 then s.hw_strap1 % 2 ^ 32
      else if i = AST2600_SILICON_REV2 then s.silicon_rev % 2 ^ 32
      else if i = AST2600_SILICON_REV then AST2600_A1_SILICON_REV % 2 ^ 32
      else if i < nr then R i else s.regs i := rfl

/-- C3: for each descriptor, reset sets every in-range register to the
descriptor's reset-table value (0 when absent from the table) except
the seeded fields, which receive the configured silicon revision (Gen-C
pins the primary revision register and seeds the extended one), the two
configured strap words and the configured protection-key state; reset
is idempotent. -/
theorem reset_loads_reset_values (rev : Rev) (s : SCUState)
    (hsr : s.silicon_rev < 2 ^ 32) (hs1 : s.hw_strap1 < 2 ^ 32)
    (hs2 : s.hw_strap2 < 2 ^ 32) (hpk : s.hw_prot_key < 2 ^ 32) :
    (∀ i, i < nr_regs rev → ¬ seededIdx rev i →
        (scu_reset rev s).regs i = class_resets rev i) ∧
    seededVals rev s ∧
    scu_reset rev (scu_reset rev s) = scu_reset rev s := by
  cases rev
  case ast2400 =>
    refine ⟨?_, ?_, ?_⟩
    · intro i hi hni
      simp only [seededIdx] at hni
      push_neg at hni
      obtain ⟨n31, n28, n52, n0⟩ := hni
      simp only [scu_reset, nr_regs] at *
      rw [aspeed_scu_reset_regs, if_neg n0, if_neg n52, if_neg n28, if_neg n31, if_pos hi]
      rfl
    · simp only [seededVals, scu_reset]
      refine ⟨?_, ?_, ?_, ?_⟩ <;> rw [aspeed_scu_reset_regs]
      · rw [if_neg (by decide), if_neg (by decide), if_neg (by decide), if_pos rfl,
          Nat.mod_eq_of_lt hsr]
      · rw [if_neg (by decide), if_neg (by decide), if_pos rfl, Nat.mod_eq_of_lt hs1]
      · rw [if_neg (by decide), if_pos rfl, Nat.mod_eq_of_lt hs2]
      · rw [if_pos rfl, Nat.mod_eq_of_lt hpk]
    · simp only [scu_reset]
      refine SCUState.ext (funext fun i => ?_) rfl rfl rfl rfl
      rw [aspeed_scu_reset_regs, aspeed_scu_reset_regs]
      split_ifs <;> rfl
  case ast2500 =>
    refine ⟨?_, ?_, ?_⟩
    · intro i hi hni
      simp only [seededIdx] at hni
      push_neg at hni
      obtain ⟨n31, n28, n52, n0⟩ := hni
      simp only [scu_reset, nr_regs] at *
      rw [aspeed_scu_reset_regs, if_neg n0, if_neg n52, if_neg n28, if_neg n31, if_pos hi]
      rfl
    · simp only [seededVals, scu_reset]
      refine ⟨?_, ?_, ?_, ?_⟩ <;> rw [aspeed_scu_reset_regs]
      · rw [if_neg (by decide), if_neg (by decide), if_neg (by decide), if_pos rfl,
          Nat.mod_eq_of_lt hsr]
      · rw [if_neg (by decide), if_neg (by decide), if_pos rfl, Nat.mod_eq_of_lt hs1]
      · rw [if_neg (by decide), if_pos rfl, Nat.mod_eq_of_lt hs2]
      · rw [if_pos rfl, Nat.mod_eq_of_lt hpk]
    · simp only [scu_reset]
      refine SCUState.ext (funext fun i => ?_) rfl rfl rfl rfl
      rw [aspeed_scu_reset_regs, aspeed_scu_reset_regs]
      split_ifs <;> rfl
  case ast2600 =>
    refine ⟨?_, ?_, ?_⟩
    · intro i hi hni
      simp only [seededIdx] at hni
      push_neg at hni
      obtain ⟨n1, n5, n320, n324, n0⟩ := hni
      simp only [scu_reset, nr_regs] at *
      rw [aspeed_ast2600_scu_reset_regs, if_neg (show ¬ i = PROT_KEY from n0), if_neg n324, if_neg n320,
        if_neg n5, if_neg n1, if_pos hi]
      rfl
    · simp only [seededVals, scu_reset]
      refine ⟨?_, ?_, ?_, ?_, ?_⟩ <;> rw [aspeed_ast2600_scu_reset_regs]
      · rw [if_neg (by decide), if_neg (by decide), if_neg (by decide), if_neg (by decide),
          if_pos rfl, Nat.mod_eq_of_lt (by decide : AST2600_A1_SILICON_REV < 2 ^ 32)]
      · rw [if_neg (by decide), if_neg (by decide), if_neg (by decide), if_pos rfl,
          Nat.mod_eq_of_lt hsr]
      · rw [if_neg (by decide), if_neg (by decide), if_pos rfl, Nat.mod_eq_of_lt hs1]
      · rw [if_neg (by decide), if_pos rfl, Nat.mod_eq_of_lt hs2]
      · rw [if_pos rfl, Nat.mod_eq_of_lt hpk]
    · simp only [scu_reset]
      refine SCUState.ext (funext fun i => ?_) rfl rfl rfl rfl
      rw [aspeed_ast2600_scu_reset_regs, aspeed_ast2600_scu_reset_regs]
      split_ifs <;> rfl

theorem reset_loads_reset_values_witness :
    (scu_reset .ast2500 (construct 17 5 6 1)).regs CLK_SEL = 0xF3F40000 ∧
    (scu_reset .ast2500 (construct 17 5 6 1)).regs SILICON_REV = 17 ∧
    scu_reset .ast2500 (scu_reset .ast2500 (construct 17 5 6 1)) =
      scu_reset .ast2500 (construct 17 5 6 1) := by
  have h := reset_loads_reset_values .ast2500 (construct 17 5 6 1)
    (by decide) (by decide) (by decide) (by decide)
  refine ⟨?_, h.2.1.1, h.2.2⟩
  have h2 := h.1 CLK_SEL (by decide)
    (by show ¬(CLK_SEL = SILICON_REV ∨ CLK_SEL = HW_STRAP1 ∨ CLK_SEL = HW_STRAP2 ∨
          CLK_SEL = PROT_KEY); decide)
  rw [h2]
  decide


theorem regs_mk (r : Nat → Nat) (a b c d : Nat) (j : Nat) :
    (SCUState.mk r a b c d).regs j = r j := rfl

theorem compl32_lt (x : Nat) : compl32 x < 2 ^ 32 := by
  unfold compl32
  exact Nat.xor_lt_two_pow (Nat.mod_lt _ (by norm_num)) (by norm_num)

theorem land_compl32_lt (a x : Nat) : a &&& compl32 x < 2 ^ 32 :=
  lt_of_le_of_lt Nat.and_le_right (compl32_lt x)

theorem or_one_and_compl_one_bit0 (x : Nat) : ((x ||| 1) &&& compl32 1) &&& 1 = 0 := by
  apply Nat.eq_of_testBit_eq
  intro k
  cases k with
  | zero =>
      simp only [Nat.testBit_and, Nat.testBit_or, Nat.zero_testBit]
      have : (compl32 1).testBit 0 = false := by decide
      simp [this]
  | succ n =>
      simp only [Nat.testBit_and, Nat.testBit_or, Nat.zero_testBit]
      have : Nat.testBit 1 (n + 1) = false := by
        simp [Nat.testBit_add_one]
      simp [this]

theorem or_one_and_compl_one_shift (x : Nat) (hx : x < 2 ^ 32) :
    ((x ||| 1) &&& compl32 1) >>> 1 = x >>> 1 := by
  apply Nat.eq_of_testBit_eq
  intro k
  simp only [Nat.testBit_shiftRight, Nat.testBit_and, Nat.testBit_or]
  have h1 : Nat.testBit 1 (1 + k) = false := by
    rw [Nat.add_comm, Nat.testBit_add_one]
    simp
  rw [h1, Bool.or_false]
  by_cases hk : 1 + k < 32
  · have hc : (compl32 1).testBit (1 + k) = true := by
      simp only [compl32, Nat.testBit_xor, Nat.testBit_mod_two_pow,
        Nat.testBit_two_pow_sub_one]
      simp [hk, h1]
    rw [hc, Bool.and_true]
  · have hxb : x.testBit (1 + k) = false :=
      Nat.testBit_lt_two_pow
        (lt_of_lt_of_le hx (Nat.pow_le_pow_right (by norm_num) (by omega)))
    simp [hxb]

theorem ast2600_clear_write_regs : ∀ (s : SCUState) (offset data : Nat),
    (TO_REG offset = AST2600_SYS_RST_CTRL_CLR ∨
     TO_REG offset = AST2600_SYS_RST_CTRL2_CLR ∨
     TO_REG offset = AST2600_CLK_STOP_CTRL_CLR ∨
     TO_REG offset = AST2600_CLK_STOP_CTRL2_CLR ∨
     TO_REG offset = AST2600_HW_STRAP1_CLR ∨
     TO_REG offset = AST2600_HW_STRAP2_CLR) →
    data < 2 ^ 32 →
    (aspeed_ast2600_scu_write s offset data).regs (TO_REG offset - 1)
        = s.regs (TO_REG offset - 1) &&& compl32 data ∧
    ∀ j, j ≠ TO_REG offset - 1 →
      (aspeed_ast2600_scu_write s offset data).regs j = s.regs j := by
  intro s offset data hreg hd
  simp only [aspeed_ast2600_scu_write]
  rw [Nat.mod_eq_of_lt hd]
  rcases hreg with h | h | h | h | h | h <;>
    rw [h] <;>
    rw [if_neg (by decide), if_neg (by decide), if_neg (by decide), if_neg (by decide),
      if_pos (by decide)] <;>
    refine ⟨?_, fun j hj => upd32_other _ _ _ _ hj⟩ <;>
    rw [regs_mk, upd32_self, Nat.mod_eq_of_lt (land_compl32_lt _ _)]

/-- C5: on the AST2600, a write of `v` to any W1C clear register stores
`old &&& ~v` into the paired set register one word below and changes no
other register — in particular the clear register's own slot is
untouched; consequently a W1S write of `0x1` to `AST2600_SYS_RST_CTRL`
followed by a write of `0x1` to `AST2600_SYS_RST_CTRL_CLR` leaves bit 0
of the set register reading 0, all its other bits unchanged, and every
other register unchanged. -/
theorem w1c_clears_paired_set_register :
    (∀ (s : SCUState) (offset data : Nat),
      (TO_REG offset = AST2600_SYS_RST_CTRL_CLR ∨
       TO_REG offset = AST2600_SYS_RST_CTRL2_CLR ∨
       TO_REG offset = AST2600_CLK_STOP_CTRL_CLR ∨
       TO_REG offset = AST2600_CLK_STOP_CTRL2_CLR ∨
       TO_REG offset = AST2600_HW_STRAP1_CLR ∨
       TO_REG offset = AST2600_HW_STRAP2_CLR) →
      data < 2 ^ 32 →
      (aspeed_ast2600_scu_write s offset data).regs (TO_REG offset - 1)
          = s.regs (TO_REG offset - 1) &&& compl32 data ∧
      ∀ j, j ≠ TO_REG offset - 1 →
        (aspeed_ast2600_scu_write s offset data).regs j = s.regs j) ∧
    (∀ s : SCUState, s.regs AST2600_SYS_RST_CTRL < 2 ^ 32 →
      ((aspeed_ast2600_scu_write (aspeed_ast2600_scu_write s 0x40 0x1) 0x44 0x1).regs
          AST2600_SYS_RST_CTRL) &&& 0x1 = 0 ∧
      ((aspeed_ast2600_scu_write (aspeed_ast2600_scu_write s 0x40 0x1) 0x44 0x1).regs
          AST2600_SYS_RST_CTRL) >>> 1 = s.regs AST2600_SYS_RST_CTRL >>> 1 ∧
      ∀ j, j ≠ AST2600_SYS_RST_CTRL →
        (aspeed_ast2600_scu_write (aspeed_ast2600_scu_write s 0x40 0x1) 0x44 0x1).regs j
          = s.regs j) := by
  refine ⟨ast2600_clear_write_regs, ?_⟩
  have part1 := ast2600_clear_write_regs
  intro s hx
  have h16 : (aspeed_ast2600_scu_write s 0x40 0x1).regs AST2600_SYS_RST_CTRL
      = s.regs AST2600_SYS_RST_CTRL ||| 0x1 := by
    simp only [aspeed_ast2600_scu_write]
    rw [if_neg (by decide), if_neg (by decide), if_neg (by decide),
      if_pos (by decide)]
    show upd32 s.regs (TO_REG 0x40) _ AST2600_SYS_RST_CTRL = _
    rw [show TO_REG 0x40 = AST2600_SYS_RST_CTRL from rfl, upd32_self,
      show (0x1 : Nat) % 2 ^ 32 = 0x1 from rfl,
      Nat.mod_eq_of_lt (Nat.or_lt_two_pow hx (by norm_num : (0x1 : Nat) < 2 ^ 32))]
  have hfr1 : ∀ j, j ≠ AST2600_SYS_RST_CTRL →
      (aspeed_ast2600_scu_write s 0x40 0x1).regs j = s.regs j := by
    intro j hj
    simp only [aspeed_ast2600_scu_write]
    rw [if_neg (by decide), if_neg (by decide), if_neg (by decide),
      if_pos (by decide)]
    show upd32 s.regs (TO_REG 0x40) _ j = _
    exact upd32_other _ _ _ _ hj
  have h2 := part1 (aspeed_ast2600_scu_write s 0x40 0x1) 0x44 0x1
    (by left; decide) (by norm_num : (0x1 : Nat) < 2 ^ 32)
  rw [show TO_REG 0x44 - 1 = AST2600_SYS_RST_CTRL from by decide] at h2
  obtain ⟨h2a, h2b⟩ := h2
  rw [h16] at h2a
  refine ⟨?_, ?_, ?_⟩
  · rw [h2a]
    exact or_one_and_compl_one_bit0 _
  · rw [h2a]
    exact or_one_and_compl_one_shift _ hx
  · intro j hj
    rw [h2b j hj]
    exact hfr1 j hj

theorem w1c_clears_paired_set_register_witness :
    (aspeed_ast2600_scu_write resetC 0x44 0x1).regs AST2600_SYS_RST_CTRL
        = resetC.regs AST2600_SYS_RST_CTRL &&& compl32 0x1 ∧
    (aspeed_ast2600_scu_write resetC 0x44 0x1).regs AST2600_SYS_RST_CTRL_CLR
        = resetC.regs AST2600_SYS_RST_CTRL_CLR ∧
    (aspeed_ast2600_scu_write (aspeed_ast2600_scu_write resetC 0x40 0x1) 0x44 0x1).regs
        AST2600_SYS_RST_CTRL &&& 0x1 = 0 := by
  have h1 := (w1c_clears_paired_set_register.1 resetC 0x44 0x1 (Or.inl (by decide))
    (by norm_num))
  have h2 := (w1c_clears_paired_set_register.2 resetC (by decide))
  exact ⟨h1.1, h1.2 AST2600_SYS_RST_CTRL_CLR (by decide), h2.1⟩


theorem clkin_lt (s : SCUState) : aspeed_scu_get_clkin s < 2 ^ 32 := by
  unfold aspeed_scu_get_clkin
  split_ifs <;> norm_num

theorem clkin_cases (s : SCUState) :
    aspeed_scu_get_clkin s = 25000000 ∨ aspeed_scu_get_clkin s = 48000000 ∨
    aspeed_scu_get_clkin s = 24000000 := by
  unfold aspeed_scu_get_clkin
  split_ifs <;> simp

/-- C6 (amended): for every revision and state, `get_apb_freq` returns 0
whenever the PLL "off" bit is set.  When the "off" bit is clear and the
"bypass" bit is set — and, on the AST2400 only, the "programmed" bit is
also set, since its bypass test lives inside the programmed branch —
the PLL stage (`calc_hpll`) returns exactly the strap-selected input
clock frequency, and `get_apb_freq` returns that input clock divided by
the PCLK divisor + 1 and the descriptor's APB divider (not the raw
input clock). -/
theorem apb_freq_off_and_bypass (rev : Rev) (s : SCUState) :
    (s.regs HPLL_PARAM &&& pll_off_bit rev ≠ 0 → aspeed_scu_get_apb_freq rev s = 0) ∧
    (s.regs HPLL_PARAM &&& pll_off_bit rev = 0 →
      s.regs HPLL_PARAM &&& pll_bypass_bit rev ≠ 0 →
      (rev = .ast2400 → s.regs HPLL_PARAM &&& SCU_AST2400_H_PLL_PROGRAMMED ≠ 0) →
      calc_hpll rev s (s.regs HPLL_PARAM) = aspeed_scu_get_clkin s ∧
      aspeed_scu_get_apb_freq rev s =
        aspeed_scu_get_clkin s / (SCU_CLK_GET_PCLK_DIV (s.regs CLK_SEL) + 1)
          / apb_divider rev) ∧
    (aspeed_scu_get_clkin s = 25000000 ∨ aspeed_scu_get_clkin s = 48000000 ∨
      aspeed_scu_get_clkin s = 24000000) := by
  refine ⟨?_, ?_, clkin_cases s⟩
  · intro hoff
    simp only [pll_off_bit] at hoff
    cases rev <;>
      simp only [aspeed_scu_get_apb_freq, calc_hpll, aspeed_2400_scu_calc_hpll,
        aspeed_2500_scu_calc_hpll] <;>
      rw [if_pos hoff] <;>
      simp [Nat.zero_div]
  · intro hoff hbyp hprog
    simp only [pll_off_bit] at hoff
    simp only [pll_bypass_bit] at hbyp
    have hA : calc_hpll rev s (s.regs HPLL_PARAM) = aspeed_scu_get_clkin s := by
      cases rev
      case ast2400 =>
        have hp := hprog rfl
        simp only [calc_hpll, aspeed_2400_scu_calc_hpll]
        rw [if_neg (not_ne_iff.mpr hoff), if_pos hp, if_neg hbyp, Nat.mul_one,
          Nat.mod_eq_of_lt (clkin_lt s)]
      case ast2500 =>
        simp only [calc_hpll, aspeed_2500_scu_calc_hpll]
        rw [if_neg (not_ne_iff.mpr hoff), if_neg hbyp, Nat.mul_one,
          Nat.mod_eq_of_lt (clkin_lt s)]
      case ast2600 =>
        simp only [calc_hpll, aspeed_2500_scu_calc_hpll]
        rw [if_neg (not_ne_iff.mpr hoff), if_neg hbyp, Nat.mul_one,
          Nat.mod_eq_of_lt (clkin_lt s)]
    refine ⟨hA, ?_⟩
    simp only [aspeed_scu_get_apb_freq]
    rw [hA]

/-- C6 counterexample: the claim as stated fails in two ways.  On the
AST2500, with "off" clear and "bypass" set (state `sB`, 24 MHz strap),
`get_apb_freq` returns 6000000 — the input clock divided by the PCLK
divisor + 1 and the APB divider — not the 24 MHz input clock.  On the
AST2400 with "off" clear and "bypass" set but "programmed" clear
(state `sA`), the formula takes the strapping path and the PLL stage
yields 384 MHz, with `get_apb_freq` returning 192 MHz. -/
theorem apb_freq_bypass_counterexample :
    sB.regs HPLL_PARAM &&& SCU_H_PLL_OFF = 0 ∧
    sB.regs HPLL_PARAM &&& SCU_H_PLL_BYPASS_EN ≠ 0 ∧
    aspeed_scu_get_clkin sB = 24000000 ∧
    aspeed_scu_get_apb_freq .ast2500 sB = 6000000 ∧
    aspeed_scu_get_apb_freq .ast2500 sB ≠ aspeed_scu_get_clkin sB ∧
    sA.regs HPLL_PARAM &&& SCU_AST2400_H_PLL_OFF = 0 ∧
    sA.regs HPLL_PARAM &&& SCU_AST2400_H_PLL_BYPASS_EN ≠ 0 ∧
    aspeed_scu_get_clkin sA = 24000000 ∧
    calc_hpll .ast2400 sA (sA.regs HPLL_PARAM) = 384000000 ∧
    aspeed_scu_get_apb_freq .ast2400 sA = 192000000 := by
  refine ⟨by decide, by decide, by decide, by decide, by decide, by decide, by decide,
    by decide, by decide, by decide⟩

theorem apb_freq_off_and_bypass_witness :
    aspeed_scu_get_apb_freq .ast2500 sOff = 0 ∧
    calc_hpll .ast2500 sB (sB.regs HPLL_PARAM) = 24000000 ∧
    aspeed_scu_get_apb_freq .ast2500 sB =
      24000000 / (SCU_CLK_GET_PCLK_DIV (sB.regs CLK_SEL) + 1) / apb_divider .ast2500 := by
  have h1 := (apb_freq_off_and_bypass .ast2500 sOff).1 (by decide)
  have h2 := (apb_freq_off_and_bypass .ast2500 sB).2.1 (by decide) (by decide)
    (fun hc => absurd hc (by decide))
  refine ⟨h1, ?_, ?_⟩
  · rw [h2.1]
    decide
  · rw [h2.2, show aspeed_scu_get_clkin sB = 24000000 from by decide]

/-- C7: on the AST2600, a write to a strap register whose protection
register (two words above) is nonzero leaves the whole state unchanged;
when the protection register is zero the write ORs the value into the
strap register and changes nothing else. -/
theorem strap_write_respects_protection (s : SCUState) (offset data : Nat)
    (hreg : TO_REG offset = AST2600_HW_STRAP1 ∨ TO_REG offset = AST2600_HW_STRAP2)
    (hd : data < 2 ^ 32) (hs : s.regs (TO_REG offset) < 2 ^ 32) :
    (s.regs (TO_REG offset + 2) ≠ 0 → aspeed_ast2600_scu_write s offset data = s) ∧
    (s.regs (TO_REG offset + 2) = 0 →
      (aspeed_ast2600_scu_write s offset data).regs (TO_REG offset)
          = s.regs (TO_REG offset) ||| data ∧
      ∀ j, j ≠ TO_REG offset →
        (aspeed_ast2600_scu_write s offset data).regs j = s.regs j) := by
  rcases hreg with h | h <;>
    rw [h] at hs ⊢ <;>
    simp only [aspeed_ast2600_scu_write] <;>
    rw [Nat.mod_eq_of_lt hd, h] <;>
    rw [if_neg (by decide), if_neg (by decide), if_pos (by decide)] <;>
    exact ⟨fun hp => if_pos hp,
      fun hp => by
        rw [if_neg (not_ne_iff.mpr hp)]
        exact ⟨by rw [regs_mk, upd32_self, Nat.mod_eq_of_lt (Nat.or_lt_two_pow hs hd)],
          fun j hj => by rw [regs_mk]; exact upd32_other _ _ _ _ hj⟩⟩

theorem strap_write_respects_protection_witness :
    aspeed_ast2600_scu_write sProt 0x500 0x3 = sProt ∧
    (aspeed_ast2600_scu_write resetC 0x500 0x3).regs AST2600_HW_STRAP1
        = resetC.regs AST2600_HW_STRAP1 ||| 0x3 := by
  have h1 := (strap_write_respects_protection sProt 0x500 0x3 (by left; decide)
    (by decide) (by decide)).1 (by decide)
  have h2 := ((strap_write_respects_protection resetC 0x500 0x3 (by left; decide)
    (by decide) (by decide)).2 (by decide)).1
  exact ⟨h1, h2⟩

/-- C8: on the AST2600, a write to a strap-clear register AND-clears its
value out of the paired strap register one word below even when that
strap register's protection register holds a nonzero value — the
protection flag gates only the W1S set path, not the clear path — and
changes no other register. -/
theorem strap_clear_bypasses_protection (s : SCUState) (offset data : Nat)
    (hreg : TO_REG offset = AST2600_HW_STRAP1_CLR ∨ TO_REG offset = AST2600_HW_STRAP2_CLR)
    (hprot : s.regs (TO_REG offset + 1) ≠ 0) (hd : data < 2 ^ 32) :
    (aspeed_ast2600_scu_write s offset data).regs (TO_REG offset - 1)
        = s.regs (TO_REG offset - 1) &&& compl32 data ∧
    ∀ j, j ≠ TO_REG offset - 1 →
      (aspeed_ast2600_scu_write s offset data).regs j = s.regs j :=
  ast2600_clear_write_regs s offset data
    (Or.inr (Or.inr (Or.inr (Or.inr hreg)))) hd

theorem strap_clear_bypasses_protection_witness :
    (aspeed_ast2600_scu_write sProt 0x504 0x2).regs AST2600_HW_STRAP1
        = sProt.regs AST2600_HW_STRAP1 &&& compl32 0x2 ∧
    (aspeed_ast2600_scu_write sProt 0x504 0x2).regs AST2600_HW_STRAP1_PROT
        = sProt.regs AST2600_HW_STRAP1_PROT := by
  have h := strap_clear_bypasses_protection sProt 0x504 0x2 (by left; decide)
    (by decide) (by decide)
  exact ⟨h.1, h.2 AST2600_HW_STRAP1_PROT (by decide)⟩

theorem land_compl64_eq_compl32 (x d : Nat) (hx : x < 2 ^ 32) :
    x &&& compl64 d = x &&& compl32 d := by
  apply Nat.eq_of_testBit_eq
  intro k
  simp only [Nat.testBit_and, compl64, compl32, Nat.testBit_xor, Nat.testBit_mod_two_pow,
    Nat.testBit_two_pow_sub_one]
  by_cases hk : k < 32
  · have hk64 : k < 64 := by omega
    simp [hk, hk64]
  · have hxb : x.testBit k = false :=
      Nat.testBit_lt_two_pow (lt_of_lt_of_le hx (Nat.pow_le_pow_right (by norm_num) (by omega)))
    simp [hxb]

/-- C9: on the AST2500 only, a write to the hardware-strap-1 register
ORs the value into it, and a write addressed to the silicon-revision
register AND-clears the value out of the strap register while leaving
the silicon-revision slot itself unchanged; on the AST2400 the same two
offsets instead store verbatim (strap) and are discarded as read-only
(silicon revision). -/
theorem ast2500_strap_or_and_silicon_rev_alias (s : SCUState) (offset data : Nat)
    (hd : data < 2 ^ 32) (hs : s.regs HW_STRAP1 < 2 ^ 32) :
    (TO_REG offset = HW_STRAP1 →
      (aspeed_ast2500_scu_write s offset data).regs HW_STRAP1 = s.regs HW_STRAP1 ||| data ∧
      ∀ j, j ≠ HW_STRAP1 → (aspeed_ast2500_scu_write s offset data).regs j = s.regs j) ∧
    (TO_REG offset = SILICON_REV →
      (aspeed_ast2500_scu_write s offset data).regs HW_STRAP1
          = s.regs HW_STRAP1 &&& compl32 data ∧
      (aspeed_ast2500_scu_write s offset data).regs SILICON_REV = s.regs SILICON_REV ∧
      ∀ j, j ≠ HW_STRAP1 → (aspeed_ast2500_scu_write s offset data).regs j = s.regs j) ∧
    (TO_REG offset = HW_STRAP1 →
      (aspeed_ast2400_scu_write s offset data).regs HW_STRAP1 = data) ∧
    (TO_REG offset = SILICON_REV → aspeed_ast2400_scu_write s offset data = s) := by
  refine ⟨?_, ?_, ?_, ?_⟩
  · intro h
    simp only [aspeed_ast2500_scu_write]
    rw [h]
    rw [if_neg (by decide), if_neg (by decide), if_pos rfl]
    exact ⟨by rw [regs_mk, upd32_self, Nat.mod_eq_of_lt (Nat.or_lt_two_pow hs hd)],
      fun j hj => by rw [regs_mk]; exact upd32_other _ _ _ _ hj⟩
  · intro h
    simp only [aspeed_ast2500_scu_write]
    rw [h]
    rw [if_neg (by decide), if_neg (by decide), if_neg (by decide), if_pos rfl]
    refine ⟨?_, ?_, fun j hj => by rw [regs_mk]; exact upd32_other _ _ _ _ hj⟩
    · rw [regs_mk, upd32_self, land_compl64_eq_compl32 _ _ hs,
        Nat.mod_eq_of_lt (land_compl32_lt _ _)]
    · rw [regs_mk]
      exact upd32_other _ _ _ _ (by decide)
  · intro h
    simp only [aspeed_ast2400_scu_write]
    rw [h]
    rw [if_neg (by decide), if_neg (by decide), if_neg (by decide)]
    rw [regs_mk, upd32_self, Nat.mod_eq_of_lt hd]
  · intro h
    simp only [aspeed_ast2400_scu_write]
    rw [h]
    rw [if_neg (by decide), if_neg (by decide), if_pos (Or.inl rfl)]

theorem ast2500_strap_or_and_silicon_rev_alias_witness :
    (aspeed_ast2500_scu_write resetB 0x70 0x5).regs HW_STRAP1
        = resetB.regs HW_STRAP1 ||| 0x5 ∧
    (aspeed_ast2500_scu_write resetB 0x7C 0x3).regs HW_STRAP1
        = resetB.regs HW_STRAP1 &&& compl32 0x3 ∧
    (aspeed_ast2500_scu_write resetB 0x7C 0x3).regs SILICON_REV
        = resetB.regs SILICON_REV ∧
    aspeed_ast2400_scu_write resetA 0x7C 0x3 = resetA := by
  have h1 := ast2500_strap_or_and_silicon_rev_alias resetB 0x70 0x5 (by decide) (by decide)
  have h2 := ast2500_strap_or_and_silicon_rev_alias resetB 0x7C 0x3 (by decide) (by decide)
  have h3 := ast2500_strap_or_and_silicon_rev_alias resetA 0x7C 0x3 (by decide) (by decide)
  exact ⟨(h1.1 (by decide)).1, (h2.2.1 (by decide)).1, (h2.2.1 (by decide)).2.1,
    h3.2.2.2 (by decide)⟩

end AspeedSCU
